import Mathlib

/-!
A shallow embedding of kaas.py: a scraper that scans a music library root
for artist folders, queries the TheAudioDB search API for each artist that
has no artwork yet, and saves the matched thumbnail image into the artist
folder.

The filesystem and the HTTP service are modelled as oracles bundled in a
`World`.  The control flow of the Python methods `_collect_artists`,
`_fetch_artwork`, `_save_image` and `scrape` is translated directly:

  - `collect_artists` embeds `_collect_artists` (lines 49-70 of kaas.py);
  - `fetch_artwork` embeds `_fetch_artwork` (lines 72-91), returning both
    the list of HTTP requests the call makes and its result;
  - `scrapeLoop`/`scrape` embed `scrape` (lines 36-47), where the `try`
    block catches exactly `ScrapingError` and
    `requests.exceptions.RequestException`, and `_save_image` (lines
    93-98), whose write either succeeds or raises an `OSError` given by
    the oracle `writeOk`.

Exceptions that the Python code does not catch (a `KeyError` from a missing
JSON key, an `OSError` from the file write) terminate the run; they are
modelled as a `RunError` value that ends the loop.
-/

/-- One directory entry: its name as returned by os.listdir, together with
whether os.path.isdir holds for the joined path. -/
structure Entry where
  name : String
  isDir : Bool
  deriving DecidableEq

/-- Outcome of one HTTP GET: either a transport failure (connection error
or timeout, raising a RequestException), or a response carrying a status
code and a body. -/
inductive Transport (α : Type) where
  | fail
  | resp (status : Nat) (body : α)
  deriving DecidableEq

/-- The value of the strArtistThumb field of an artist record: JSON null or
a JSON string. -/
inductive ThumbValue where
  | null
  | str (s : String)
  deriving DecidableEq

/-- One artist record in a search response; `none` means the record has no
strArtistThumb key at all (indexing it raises a KeyError). -/
structure ArtistRecord where
  strArtistThumb : Option ThumbValue
  deriving DecidableEq

/-- The parsed JSON body of a search response: either an object with no
artists key, or one whose artists value is JSON null or a list of
records. -/
inductive SearchBody where
  | missingArtists
  | artists (records : Option (List ArtistRecord))
  deriving DecidableEq

/-- The three ScrapingError messages of `_fetch_artwork`, one constructor
per format string. -/
inductive ScrapeMsg where
  | noMatchFor (artist : String)
  | matchesFor (count : Nat) (artist : String)
  | noArtworkFor (artist : String)
  deriving DecidableEq

/-- How one call to `_fetch_artwork` can fail: a ScrapingError (the
semantic failures), a RequestException (transport failure or
raise_for_status), or an uncaught KeyError from indexing the parsed
JSON. -/
inductive FetchError where
  | scrapingError (msg : ScrapeMsg)
  | requestError
  | keyError (key : String)
  deriving DecidableEq

/-- An outbound HTTP request: the search query for an artist, or the
download of a thumbnail URL. -/
inductive Request where
  | search (artist : String)
  | thumb (url : String)
  deriving DecidableEq

/-- Result of one call to `_fetch_artwork`: image bytes or a failure. -/
inductive FetchResult where
  | image (content : List Nat)
  | failure (e : FetchError)
  deriving DecidableEq

/-- The external world: the library root listing (`none` when LibraryRoot
does not exist or is not a directory, so that os.listdir raises), the
listing of each artist directory, the configured artwork file name, the
HTTP responses for search queries and thumbnail URLs, and whether the
file write for an artist succeeds. -/
structure World where
  rootListing : Option (List Entry)
  artistListing : String → List Entry
  artworkFile : String
  searchResp : String → Transport SearchBody
  thumbResp : String → Transport (List Nat)
  writeOk : String → Bool

/-- The names in a directory listing, as os.listdir returns them. -/
def listdirNames (entries : List Entry) : List String :=
  entries.map Entry.name

/-- Embeds the test node.startswith of the one-character hidden-file
marker: true exactly when the first character of the name is a dot. -/
def startsWithDot (s : String) : Bool :=
  match s.data with
  | [] => false
  | c :: _ => c == '.'

/-- Embeds `_collect_artists`: `none` when os.listdir on the library root
raises (LibraryRoot missing or not a directory); otherwise the immediate
entries that are directories and not hidden, minus those whose own listing
contains the artwork file name. -/
def collect_artists (w : World) : Option (List String) :=
  match w.rootListing with
  | none => none
  | some entries =>
    let artist_dirs :=
      (entries.filter (fun node => node.isDir && !(startsWithDot node.name))).map Entry.name
    let no_artwork :=
      artist_dirs.filter (fun artist =>
        !((listdirNames (w.artistListing artist)).contains w.artworkFile))
    some no_artwork

/-- Embeds `_fetch_artwork` for one artist, given the search response and
the thumbnail oracle.  Returns the requests issued together with the
result.  Mirrors the Python control flow: GET the search URL,
raise_for_status, index the JSON body at artists, then the three-way
disambiguation, and finally the thumbnail GET whose status is never
checked. -/
def fetch_artwork (artist : String) (searchResp : Transport SearchBody)
    (thumbGet : String → Transport (List Nat)) : List Request × FetchResult :=
  match searchResp with
  | .fail => ([.search artist], .failure .requestError)
  | .resp status body =>
    if 400 ≤ status ∧ status < 600 then
      ([.search artist], .failure .requestError)
    else
      match body with
      | .missingArtists => ([.search artist], .failure (.keyError "artists"))
      | .artists matchList =>
        match matchList with
        | none => ([.search artist], .failure (.scrapingError (.noMatchFor artist)))
        | some [] => ([.search artist], .failure (.scrapingError (.noMatchFor artist)))
        | some [record] =>
          match record.strArtistThumb with
          | none => ([.search artist], .failure (.keyError "strArtistThumb"))
          | some .null => ([.search artist], .failure (.scrapingError (.noArtworkFor artist)))
          | some (.str url) =>
            if url = "" then
              ([.search artist], .failure (.scrapingError (.noArtworkFor artist)))
            else
              match thumbGet url with
              | .fail => ([.search artist, .thumb url], .failure .requestError)
              | .resp _ content => ([.search artist, .thumb url], .image content)
        | some (r1 :: r2 :: rs) =>
          ([.search artist], .failure (.scrapingError (.matchesFor (r1 :: r2 :: rs).length artist)))

/-- One logged outcome of the per-artist loop in `scrape`: a ScrapingError
logged as a warning, a RequestException logged as an error, or a saved
image. -/
inductive ScrapeEvent where
  | skipped (artist : String) (msg : ScrapeMsg)
  | skippedNet (artist : String)
  | saved (artist : String) (image : List Nat)
  deriving DecidableEq

/-- How a run can terminate abnormally: os.listdir failing on the library
root, an uncaught KeyError from `_fetch_artwork`, or an uncaught OSError
from `_save_image`. -/
inductive RunError where
  | badRoot
  | uncaughtKey (artist : String) (key : String)
  | writeError (artist : String)
  deriving DecidableEq

/-- Embeds the for-loop of `scrape`: for each artist, `_fetch_artwork`;
a ScrapingError or RequestException is caught and logged and the loop
continues; the `else` branch calls `_save_image`.  A KeyError or a write
OSError is not caught and ends the run.  Returns the requests issued, the
logged events, and `some` error when the run aborted. -/
def scrapeLoop (w : World) : List String → List Request × List ScrapeEvent × Option RunError
  | [] => ([], [], none)
  | artist :: rest =>
    let step := fetch_artwork artist (w.searchResp artist) w.thumbResp
    match step.2 with
    | .failure (.scrapingError m) =>
      let cont := scrapeLoop w rest
      (step.1 ++ cont.1, .skipped artist m :: cont.2.1, cont.2.2)
    | .failure .requestError =>
      let cont := scrapeLoop w rest
      (step.1 ++ cont.1, .skippedNet artist :: cont.2.1, cont.2.2)
    | .failure (.keyError k) => (step.1, [], some (.uncaughtKey artist k))
    | .image content =>
      if w.writeOk artist then
        let cont := scrapeLoop w rest
        (step.1 ++ cont.1, .saved artist content :: cont.2.1, cont.2.2)
      else
        (step.1, [], some (.writeError artist))

/-- Embeds `scrape`: collect the artists, then run the loop; a failing
collect (bad library root) aborts before any request. -/
def scrape (w : World) : List Request × List ScrapeEvent × Option RunError :=
  match collect_artists w with
  | none => ([], [], some .badRoot)
  | some artists => scrapeLoop w artists

/-- Number of saved-artwork events for one artist in a run trace: each one
is one file written to that artist directory. -/
def savedCount (events : List ScrapeEvent) (artist : String) : Nat :=
  match events with
  | [] => 0
  | .saved a _ :: rest => (if a = artist then 1 else 0) + savedCount rest artist
  | .skipped _ _ :: rest => savedCount rest artist
  | .skippedNet _ :: rest => savedCount rest artist

/-- The names in the library root listing (empty when the root is
unreadable); duplicate-freedom of this list is what a real directory
guarantees. -/
def rootNames (w : World) : List String :=
  match w.rootListing with
  | none => []
  | some entries => entries.map Entry.name

/-- A world with artist directories A and B where the search response for A
has no artists key, exercising the uncaught KeyError path. -/
def wMissingKey : World where
  rootListing := some [⟨"A", true⟩, ⟨"B", true⟩]
  artistListing := fun _ => []
  artworkFile := "artist.jpg"
  searchResp := fun a =>
    if a = "A" then .resp 200 .missingArtists else .resp 200 (.artists (some []))
  thumbResp := fun _ => .fail
  writeOk := fun _ => true

/-- A world with artist directories A and B where every search resolves to
one record with a thumbnail, the download succeeds, but the file write for
A raises an OSError. -/
def wWriteFail : World where
  rootListing := some [⟨"A", true⟩, ⟨"B", true⟩]
  artistListing := fun _ => []
  artworkFile := "artist.jpg"
  searchResp := fun _ => .resp 200 (.artists (some [⟨some (.str "http://img/x.jpg")⟩]))
  thumbResp := fun _ => .resp 200 [7, 7, 7]
  writeOk := fun a => a != "A"

/-- A world whose library root cannot be listed. -/
def wNoRoot : World where
  rootListing := none
  artistListing := fun _ => []
  artworkFile := "artist.jpg"
  searchResp := fun _ => .resp 200 (.artists (some []))
  thumbResp := fun _ => .resp 200 []
  writeOk := fun _ => true

/-- A world where artist A resolves and saves, while directory B already
contains the artwork file. -/
def wHasArtwork : World where
  rootListing := some [⟨"A", true⟩, ⟨"B", true⟩]
  artistListing := fun a => if a = "B" then [⟨"artist.jpg", false⟩] else []
  artworkFile := "artist.jpg"
  searchResp := fun _ => .resp 200 (.artists (some [⟨some (.str "http://img/x.jpg")⟩]))
  thumbResp := fun _ => .resp 200 [7, 7, 7]
  writeOk := fun _ => true

/-- A world where the search request for A fails at the transport level and
B resolves to an empty record list. -/
def wNetFail : World where
  rootListing := some [⟨"A", true⟩, ⟨"B", true⟩]
  artistListing := fun _ => []
  artworkFile := "artist.jpg"
  searchResp := fun a => if a = "A" then .fail else .resp 200 (.artists (some []))
  thumbResp := fun _ => .fail
  writeOk := fun _ => true

/-- A world where directory A contains a subdirectory named artist.jpg
rather than a file of that name. -/
def wSubdirArtwork : World where
  rootListing := some [⟨"A", true⟩, ⟨"B", true⟩]
  artistListing := fun a => if a = "A" then [⟨"artist.jpg", true⟩] else []
  artworkFile := "artist.jpg"
  searchResp := fun _ => .resp 200 (.artists (some []))
  thumbResp := fun _ => .fail
  writeOk := fun _ => true

/-- Claim C1: on a search response that passes raise_for_status, the
disambiguation policy applies in order and short-circuits: a JSON-null or
empty artists list yields the no-match ScrapingError, and a list of two or
more records yields the several-matches ScrapingError whatever the records
contain; in both cases the search request is the only request issued, so no
thumbnail is ever fetched. -/
theorem C1_disambiguation_short_circuit (artist : String) (status : Nat)
    (matchList : Option (List ArtistRecord)) (thumbGet : String → Transport (List Nat))
    (hstatus : ¬(400 ≤ status ∧ status < 600)) :
    ((matchList = none ∨ matchList = some []) →
      fetch_artwork artist (.resp status (.artists matchList)) thumbGet
        = ([.search artist], .failure (.scrapingError (.noMatchFor artist))))
    ∧ (∀ records, matchList = some records → 2 ≤ records.length →
      fetch_artwork artist (.resp status (.artists matchList)) thumbGet
        = ([.search artist], .failure (.scrapingError (.matchesFor records.length artist)))) := by
  constructor
  · rintro (rfl | rfl) <;> simp [fetch_artwork, hstatus]
  · rintro records rfl hlen
    rcases records with _ | ⟨r1, _ | ⟨r2, rs⟩⟩
    · simp at hlen
    · simp at hlen
    · simp [fetch_artwork, hstatus]

/-- Concrete instance of C1: a search response with a JSON-null artists
value yields no-match and issues only the search request. -/
theorem C1_disambiguation_short_circuit_witness :
    fetch_artwork "A" (.resp 200 (.artists none)) (fun _ => .fail)
      = ([.search "A"], .failure (.scrapingError (.noMatchFor "A"))) :=
  (C1_disambiguation_short_circuit "A" 200 none (fun _ => .fail) (by decide)).1 (Or.inl rfl)

/-- Claim C2 counterexample: a 404 status on the thumbnail request is not
classified as a network error; the call succeeds and the body of the
failed response is returned verbatim as the artwork bytes. -/
theorem C2_thumbnail_status_counterexample :
    fetch_artwork "A" (.resp 200 (.artists (some [⟨some (.str "http://img/x.jpg")⟩])))
      (fun _ => .resp 404 [60, 104, 116, 109, 108, 62])
      = ([.search "A", .thumb "http://img/x.jpg"], .image [60, 104, 116, 109, 108, 62])
    ∧ (fetch_artwork "A" (.resp 200 (.artists (some [⟨some (.str "http://img/x.jpg")⟩])))
        (fun _ => .resp 404 [60, 104, 116, 109, 108, 62])).2
      ≠ .failure .requestError := by
  decide

/-- Claim C2 (amended): a connection-level failure on either request, and a
4xx or 5xx status on the search response, raise a RequestException that the
orchestrator catches: the artist is logged as skipped and the run continues
with the remaining candidates unchanged.  The status of the thumbnail
response is never checked. -/
theorem C2_network_error_per_artist :
    (∀ artist thumbGet, fetch_artwork artist .fail thumbGet
        = ([.search artist], .failure .requestError))
    ∧ (∀ artist status body thumbGet, 400 ≤ status → status < 600 →
        fetch_artwork artist (.resp status body) thumbGet
          = ([.search artist], .failure .requestError))
    ∧ (∀ artist status url thumbGet, ¬(400 ≤ status ∧ status < 600) → url ≠ "" →
        thumbGet url = .fail →
        fetch_artwork artist (.resp status (.artists (some [⟨some (.str url)⟩]))) thumbGet
          = ([.search artist, .thumb url], .failure .requestError))
    ∧ (∀ w artist rest,
        (fetch_artwork artist (w.searchResp artist) w.thumbResp).2 = .failure .requestError →
        scrapeLoop w (artist :: rest)
          = ((fetch_artwork artist (w.searchResp artist) w.thumbResp).1
               ++ (scrapeLoop w rest).1,
             .skippedNet artist :: (scrapeLoop w rest).2.1,
             (scrapeLoop w rest).2.2)) := by
  refine ⟨fun artist thumbGet => rfl, ?_, ?_, ?_⟩
  · intro artist status body thumbGet h1 h2
    simp only [fetch_artwork]
    rw [if_pos ⟨h1, h2⟩]
  · intro artist status url thumbGet hst hurl hfail
    simp only [fetch_artwork]
    rw [if_neg hst, if_neg hurl, hfail]
  · intro w artist rest h
    simp only [scrapeLoop]
    rw [h]

/-- Concrete instances of C2: a transport failure on the search, a 500
search response, a transport failure on the thumbnail request, and the
orchestrator continuing past a network error. -/
theorem C2_network_error_per_artist_witness :
    fetch_artwork "A" .fail (fun _ => .fail) = ([.search "A"], .failure .requestError)
    ∧ fetch_artwork "A" (.resp 500 (.artists (some []))) (fun _ => .fail)
        = ([.search "A"], .failure .requestError)
    ∧ fetch_artwork "A" (.resp 200 (.artists (some [⟨some (.str "http://img/x.jpg")⟩])))
        (fun _ => .fail)
        = ([.search "A", .thumb "http://img/x.jpg"], .failure .requestError)
    ∧ scrapeLoop wNetFail ["A", "B"]
        = ((fetch_artwork "A" (wNetFail.searchResp "A") wNetFail.thumbResp).1
             ++ (scrapeLoop wNetFail ["B"]).1,
           .skippedNet "A" :: (scrapeLoop wNetFail ["B"]).2.1,
           (scrapeLoop wNetFail ["B"]).2.2) :=
  ⟨C2_network_error_per_artist.1 "A" (fun _ => .fail),
   C2_network_error_per_artist.2.1 "A" 500 (.artists (some [])) (fun _ => .fail)
     (by decide) (by decide),
   C2_network_error_per_artist.2.2.1 "A" 200 "http://img/x.jpg" (fun _ => .fail)
     (by decide) (by decide) rfl,
   C2_network_error_per_artist.2.2.2 wNetFail "A" ["B"] (by decide)⟩

/-- Claim C3 counterexample: with candidates A and B, a search response for
A lacking the artists key ends the whole run with an uncaught KeyError: no
outcome is logged for A, and B is never queried or processed. -/
theorem C3_missing_key_counterexample :
    scrape wMissingKey = ([.search "A"], [], some (.uncaughtKey "A" "artists"))
    ∧ (scrape wMissingKey).2.2 ≠ none := by
  decide

/-- Claim C3 (amended): a search response without the artists key, or a
single record without the strArtistThumb key, raises a KeyError that
neither except clause of scrape catches: the run aborts at that artist and
the remaining candidates are not processed. -/
theorem C3_missing_key_aborts_run :
    (∀ artist status thumbGet, ¬(400 ≤ status ∧ status < 600) →
      fetch_artwork artist (.resp status .missingArtists) thumbGet
        = ([.search artist], .failure (.keyError "artists")))
    ∧ (∀ artist status thumbGet, ¬(400 ≤ status ∧ status < 600) →
      fetch_artwork artist (.resp status (.artists (some [⟨none⟩]))) thumbGet
        = ([.search artist], .failure (.keyError "strArtistThumb")))
    ∧ (∀ w artist rest k,
        (fetch_artwork artist (w.searchResp artist) w.thumbResp).2
          = .failure (.keyError k) →
        scrapeLoop w (artist :: rest)
          = ((fetch_artwork artist (w.searchResp artist) w.thumbResp).1, [],
             some (.uncaughtKey artist k))) := by
  refine ⟨?_, ?_, ?_⟩
  · intro artist status thumbGet hst
    simp only [fetch_artwork]
    rw [if_neg hst]
  · intro artist status thumbGet hst
    simp only [fetch_artwork]
    rw [if_neg hst]
  · intro w artist rest k h
    simp only [scrapeLoop]
    rw [h]

/-- Concrete instances of C3: the KeyError classification and the aborted
run on the world with candidates A and B. -/
theorem C3_missing_key_aborts_run_witness :
    fetch_artwork "A" (.resp 200 .missingArtists) (fun _ => .fail)
      = ([.search "A"], .failure (.keyError "artists"))
    ∧ scrapeLoop wMissingKey ["A", "B"]
      = ([.search "A"], [], some (.uncaughtKey "A" "artists")) :=
  ⟨C3_missing_key_aborts_run.1 "A" 200 (fun _ => .fail) (by decide),
   C3_missing_key_aborts_run.2.2 wMissingKey "A" ["B"] "artists" (by decide)⟩

/-- Claim C4 counterexample: with candidates A and B, artist A resolves to
image bytes but the file write raises an OSError; the run aborts and B is
never queried or processed. -/
theorem C4_write_error_counterexample :
    scrape wWriteFail
      = ([.search "A", .thumb "http://img/x.jpg"], [], some (.writeError "A"))
    ∧ (scrape wWriteFail).2.2 ≠ none := by
  decide

/-- Claim C4 (amended): when the artwork bytes for an artist are resolved
but the file write raises an OSError, no except clause catches it: the run
aborts at that artist and the remaining candidates are not processed. -/
theorem C4_write_error_aborts_run (w : World) (artist : String) (rest : List String)
    (content : List Nat)
    (hres : (fetch_artwork artist (w.searchResp artist) w.thumbResp).2 = .image content)
    (hwrite : w.writeOk artist = false) :
    scrapeLoop w (artist :: rest)
      = ((fetch_artwork artist (w.searchResp artist) w.thumbResp).1, [],
         some (.writeError artist)) := by
  simp only [scrapeLoop]
  rw [hres, hwrite]
  simp

/-- Concrete instance of C4: the aborted run on the world whose write for
artist A fails. -/
theorem C4_write_error_aborts_run_witness :
    scrapeLoop wWriteFail ["A", "B"]
      = ([.search "A", .thumb "http://img/x.jpg"], [], some (.writeError "A")) :=
  C4_write_error_aborts_run wWriteFail "A" ["B"] [7, 7, 7] (by decide) (by decide)

/-- Claim C5 counterexample: a single record whose strArtistThumb key is
missing does not produce the no-artwork ScrapingError; indexing the record
raises a KeyError instead. -/
theorem C5_missing_thumb_counterexample :
    fetch_artwork "A" (.resp 200 (.artists (some [⟨none⟩]))) (fun _ => .fail)
      = ([.search "A"], .failure (.keyError "strArtistThumb"))
    ∧ (fetch_artwork "A" (.resp 200 (.artists (some [⟨none⟩]))) (fun _ => .fail)).2
      ≠ .failure (.scrapingError (.noArtworkFor "A")) := by
  decide

/-- Claim C5 (amended): on a search response passing raise_for_status with
exactly one record, an empty-string or JSON-null strArtistThumb yields the
no-artwork ScrapingError and no thumbnail request; a missing strArtistThumb
key raises a KeyError instead, likewise without a thumbnail request. -/
theorem C5_single_record_thumbnail (artist : String) (status : Nat)
    (thumb : Option ThumbValue) (thumbGet : String → Transport (List Nat))
    (hstatus : ¬(400 ≤ status ∧ status < 600)) :
    ((thumb = some .null ∨ thumb = some (.str "")) →
      fetch_artwork artist (.resp status (.artists (some [⟨thumb⟩]))) thumbGet
        = ([.search artist], .failure (.scrapingError (.noArtworkFor artist))))
    ∧ (thumb = none →
      fetch_artwork artist (.resp status (.artists (some [⟨thumb⟩]))) thumbGet
        = ([.search artist], .failure (.keyError "strArtistThumb"))) := by
  constructor
  · rintro (rfl | rfl) <;> simp [fetch_artwork, hstatus]
  · rintro rfl
    simp only [fetch_artwork]
    rw [if_neg hstatus]

/-- Concrete instance of C5: a JSON-null thumbnail on a single record
yields the no-artwork ScrapingError. -/
theorem C5_single_record_thumbnail_witness :
    fetch_artwork "A" (.resp 200 (.artists (some [⟨some .null⟩]))) (fun _ => .fail)
      = ([.search "A"], .failure (.scrapingError (.noArtworkFor "A"))) :=
  (C5_single_record_thumbnail "A" 200 (some .null) (fun _ => .fail) (by decide)).1 (Or.inl rfl)

/-- Requests of one fetch_artwork call: the search request first, then at
most one thumbnail request. -/
theorem fetch_requests_shape (artist : String) (sr : Transport SearchBody)
    (thumbGet : String → Transport (List Nat)) :
    (fetch_artwork artist sr thumbGet).1 = [.search artist]
    ∨ ∃ url, (fetch_artwork artist sr thumbGet).1 = [.search artist, .thumb url] := by
  rcases sr with _ | ⟨status, body⟩
  · exact Or.inl rfl
  by_cases hst : 400 ≤ status ∧ status < 600
  · left
    simp only [fetch_artwork]
    rw [if_pos hst]
  rcases body with _ | (_ | (_ | ⟨⟨_ | (_ | url)⟩, _ | ⟨r2, rs⟩⟩)) <;>
      simp only [fetch_artwork] <;> rw [if_neg hst] <;> try (left; rfl)
  by_cases hurl : url = ""
  · left
    rw [if_pos hurl]
  rw [if_neg hurl]
  rcases h : thumbGet url with _ | ⟨s, c⟩ <;> exact Or.inr ⟨url, rfl⟩

/-- A search request in a fetch_artwork call is the call's own search. -/
theorem search_mem_fetch (artist a : String) (sr : Transport SearchBody)
    (thumbGet : String → Transport (List Nat))
    (h : Request.search artist ∈ (fetch_artwork a sr thumbGet).1) : artist = a := by
  rcases fetch_requests_shape a sr thumbGet with hs | ⟨url, hs⟩ <;> rw [hs] at h <;>
    simp_all

/-- The request list of one loop iteration extends the fetch requests of
its head artist, possibly followed by the requests of the tail. -/
theorem scrapeLoop_cons_requests (w : World) (a : String) (rest : List String) :
    (scrapeLoop w (a :: rest)).1 = (fetch_artwork a (w.searchResp a) w.thumbResp).1
    ∨ (scrapeLoop w (a :: rest)).1
        = (fetch_artwork a (w.searchResp a) w.thumbResp).1 ++ (scrapeLoop w rest).1 := by
  simp only [scrapeLoop]
  split <;>
    first
      | exact Or.inl rfl
      | exact Or.inr rfl
      | (split <;> first | exact Or.inl rfl | exact Or.inr rfl)

/-- The event list of one loop iteration: empty on an abort, otherwise one
event for the head artist followed by the events of the tail. -/
theorem scrapeLoop_cons_events (w : World) (a : String) (rest : List String) :
    (scrapeLoop w (a :: rest)).2.1 = []
    ∨ (∃ m, (scrapeLoop w (a :: rest)).2.1 = .skipped a m :: (scrapeLoop w rest).2.1)
    ∨ (scrapeLoop w (a :: rest)).2.1 = .skippedNet a :: (scrapeLoop w rest).2.1
    ∨ (∃ content,
        (scrapeLoop w (a :: rest)).2.1 = .saved a content :: (scrapeLoop w rest).2.1) := by
  simp only [scrapeLoop]
  split
  · exact Or.inr (Or.inl ⟨_, rfl⟩)
  · exact Or.inr (Or.inr (Or.inl rfl))
  · exact Or.inl rfl
  · split
    · exact Or.inr (Or.inr (Or.inr ⟨_, rfl⟩))
    · exact Or.inl rfl

/-- Saved events for one artist are bounded by the artist's occurrences in
the candidate list. -/
theorem savedCount_le_count (w : World) (artist : String) :
    ∀ l : List String, savedCount (scrapeLoop w l).2.1 artist ≤ l.count artist := by
  intro l
  induction l with
  | nil => exact Nat.le_refl 0
  | cons a rest ih =>
    rcases scrapeLoop_cons_events w a rest with h | ⟨m, h⟩ | h | ⟨content, h⟩ <;>
        rw [h] <;> simp only [savedCount, List.count_cons]
    · exact Nat.zero_le _
    · omega
    · omega
    · by_cases ha : a = artist
      · simp only [ha, if_pos rfl, beq_self_eq_true, if_true]
        omega
      · rw [if_neg ha, if_neg (by simpa using ha)]
        omega

/-- Every request of a run belongs to the fetch of some candidate. -/
theorem scrapeLoop_requests_mem (w : World) :
    ∀ (l : List String) (r : Request), r ∈ (scrapeLoop w l).1 →
      ∃ a, a ∈ l ∧ r ∈ (fetch_artwork a (w.searchResp a) w.thumbResp).1 := by
  intro l
  induction l with
  | nil =>
    intro r h
    exact absurd h (List.not_mem_nil r)
  | cons a rest ih =>
    intro r h
    rcases scrapeLoop_cons_requests w a rest with hr | hr <;> rw [hr] at h
    · exact ⟨a, List.mem_cons_self a rest, h⟩
    · rcases List.mem_append.1 h with hf | ht
      · exact ⟨a, List.mem_cons_self a rest, hf⟩
      · obtain ⟨b, hb, hrb⟩ := ih r ht
        exact ⟨b, List.mem_cons_of_mem a hb, hrb⟩

/-- An artist whose directory listing already holds the artwork file name
is dropped by the collector. -/
theorem artwork_excluded (w : World) (artist : String)
    (hart : w.artworkFile ∈ listdirNames (w.artistListing artist)) :
    ∀ l, collect_artists w = some l → artist ∉ l := by
  intro l hl hmem
  unfold collect_artists at hl
  rcases hroot : w.rootListing with _ | entries <;> rw [hroot] at hl
  · exact Option.noConfusion hl
  injection hl with hl
  subst hl
  have hcond := (List.mem_filter.1 hmem).2
  simp at hcond
  exact hcond hart

/-- Duplicate-free root names give a duplicate-free candidate list. -/
theorem collect_nodup (w : World) (hnd : (rootNames w).Nodup) :
    ∀ l, collect_artists w = some l → l.Nodup := by
  intro l hl
  unfold collect_artists at hl
  rcases hroot : w.rootListing with _ | entries <;> rw [hroot] at hl
  · exact Option.noConfusion hl
  injection hl with hl
  subst hl
  have hroots : (entries.map Entry.name).Nodup := by
    unfold rootNames at hnd
    rw [hroot] at hnd
    exact hnd
  exact (hroots.sublist (List.Sublist.map Entry.name (List.filter_sublist entries))).filter _

/-- Claim C6: in a run over a duplicate-free root listing, at most one
artwork file is ever written per artist; an artist directory that already
holds the artwork file name is never queried against the metadata service
and no file is ever written into it. -/
theorem C6_at_most_one_write (w : World) (artist : String)
    (hnd : (rootNames w).Nodup) :
    savedCount (scrape w).2.1 artist ≤ 1
    ∧ (w.artworkFile ∈ listdirNames (w.artistListing artist) →
        Request.search artist ∉ (scrape w).1
        ∧ savedCount (scrape w).2.1 artist = 0) := by
  unfold scrape
  rcases hcol : collect_artists w with _ | l
  · exact ⟨Nat.zero_le 1, fun _ => ⟨List.not_mem_nil _, rfl⟩⟩
  have hnodup := collect_nodup w hnd l hcol
  constructor
  · exact le_trans (savedCount_le_count w artist l)
      (List.nodup_iff_count_le_one.1 hnodup artist)
  intro hart
  have hnotmem := artwork_excluded w artist hart l hcol
  constructor
  · intro hreq
    obtain ⟨a, ha, hmemr⟩ := scrapeLoop_requests_mem w l (Request.search artist) hreq
    have heq : artist = a := search_mem_fetch artist a (w.searchResp a) w.thumbResp hmemr
    exact hnotmem (by rw [heq]; exact ha)
  · have hb := savedCount_le_count w artist l
    rw [List.count_eq_zero.2 hnotmem] at hb
    exact Nat.le_zero.1 hb

/-- Concrete instance of C6 on a world where directory B already holds
artist.jpg: B is neither queried nor written. -/
theorem C6_at_most_one_write_witness :
    savedCount (scrape wHasArtwork).2.1 "B" ≤ 1
    ∧ (wHasArtwork.artworkFile ∈ listdirNames (wHasArtwork.artistListing "B") →
        Request.search "B" ∉ (scrape wHasArtwork).1
        ∧ savedCount (scrape wHasArtwork).2.1 "B" = 0) :=
  C6_at_most_one_write wHasArtwork "B" (by decide)

/-- Claim C7: on a readable library root, the collector returns exactly
the immediate entries that are directories, are not hidden, and whose own
listing does not hold the artwork file name. -/
theorem C7_collector_exact (w : World) (entries : List Entry)
    (h : w.rootListing = some entries) :
    ∃ l, collect_artists w = some l ∧
      ∀ artist, artist ∈ l ↔ ∃ e, e ∈ entries ∧ e.name = artist ∧ e.isDir = true
        ∧ startsWithDot artist = false
        ∧ w.artworkFile ∉ listdirNames (w.artistListing artist) := by
  refine ⟨((entries.filter (fun node => node.isDir && !(startsWithDot node.name))).map
        Entry.name).filter
      (fun artist => !((listdirNames (w.artistListing artist)).contains w.artworkFile)),
    by unfold collect_artists; rw [h], ?_⟩
  intro artist
  constructor
  · intro hmem
    have hcond := (List.mem_filter.1 hmem).2
    have hmem2 := (List.mem_filter.1 hmem).1
    obtain ⟨e, he, hename⟩ := List.mem_map.1 hmem2
    have hee := (List.mem_filter.1 he).1
    have hprop := (List.mem_filter.1 he).2
    rw [Bool.and_eq_true] at hprop
    refine ⟨e, hee, hename, hprop.1, ?_, ?_⟩
    · rw [← hename]
      simpa using hprop.2
    · simpa using hcond
  · rintro ⟨e, hee, rfl, hdir, hdot, hnotin⟩
    refine List.mem_filter.2 ⟨List.mem_map.2 ⟨e, List.mem_filter.2 ⟨hee, ?_⟩, rfl⟩, ?_⟩
    · rw [Bool.and_eq_true]
      exact ⟨hdir, by simpa using hdot⟩
    · simpa using hnotin

/-- Concrete instance of C7 on the world whose root holds directories A
and B. -/
theorem C7_collector_exact_witness :
    ∃ l, collect_artists wHasArtwork = some l ∧
      ∀ artist, artist ∈ l ↔ ∃ e, e ∈ [Entry.mk "A" true, Entry.mk "B" true]
        ∧ e.name = artist ∧ e.isDir = true
        ∧ startsWithDot artist = false
        ∧ wHasArtwork.artworkFile ∉ listdirNames (wHasArtwork.artistListing artist) :=
  C7_collector_exact wHasArtwork [Entry.mk "A" true, Entry.mk "B" true] rfl

/-- Claim C8: an unreadable library root is fatal; the run ends with the
configuration error before a single HTTP request is issued. -/
theorem C8_bad_root_fatal (w : World) (h : w.rootListing = none) :
    scrape w = ([], [], some .badRoot) := by
  unfold scrape collect_artists
  rw [h]

/-- Concrete instance of C8 on the world without a root listing. -/
theorem C8_bad_root_fatal_witness :
    scrape wNoRoot = ([], [], some .badRoot) :=
  C8_bad_root_fatal wNoRoot rfl

/-- Claim C9 counterexample: a successful search response with an empty
record list issues exactly one request, neither zero nor two. -/
theorem C9_request_count_counterexample :
    (fetch_artwork "A" (.resp 200 (.artists (some []))) (fun _ => .fail)).1.length = 1
    ∧ ¬((fetch_artwork "A" (.resp 200 (.artists (some []))) (fun _ => .fail)).1.length = 0
        ∨ (fetch_artwork "A" (.resp 200 (.artists (some []))) (fun _ => .fail)).1.length
            = 2) := by
  decide

/-- Claim C9 (amended): every call issues exactly one or two requests: the
search request first, then at most one thumbnail request, with no request
repeated and no retry. -/
theorem C9_one_or_two_requests (artist : String) (sr : Transport SearchBody)
    (thumbGet : String → Transport (List Nat)) :
    ((fetch_artwork artist sr thumbGet).1.length = 1
      ∨ (fetch_artwork artist sr thumbGet).1.length = 2)
    ∧ ((fetch_artwork artist sr thumbGet).1 = [.search artist]
      ∨ ∃ url, (fetch_artwork artist sr thumbGet).1 = [.search artist, .thumb url]) := by
  refine ⟨?_, fetch_requests_shape artist sr thumbGet⟩
  rcases fetch_requests_shape artist sr thumbGet with hs | ⟨url, hs⟩ <;> rw [hs]
  · exact Or.inl rfl
  · exact Or.inr rfl

/-- Claim C10: the existing-artwork test is by name membership only; any
entry named like the artwork file, directory or not, excludes its artist
from the candidates. -/
theorem C10_exclusion_by_name_only (w : World) (artist : String) (e : Entry)
    (hmem : e ∈ w.artistListing artist) (hname : e.name = w.artworkFile)
    (l : List String) (hl : collect_artists w = some l) :
    artist ∉ l := by
  apply artwork_excluded w artist ?_ l hl
  rw [← hname]
  exact List.mem_map_of_mem Entry.name hmem

/-- Concrete instance of C10: a subdirectory of A named artist.jpg keeps A
out of the candidate list. -/
theorem C10_exclusion_by_name_only_witness : "A" ∉ (["B"] : List String) :=
  C10_exclusion_by_name_only wSubdirArtwork "A" (Entry.mk "artist.jpg" true)
    (by decide) rfl ["B"] (by decide)
